import Mathlib

/-!
Shallow embedding of the dsul-python daemon core (src/dsul/ipc.py and
src/dsul/daemon.py) together with theorems settling the specification
claims about it.  Python values appearing in messages are modelled by the
inductive `Val`; fallible Python code is modelled with `Except PyErr` /
`Except IpcErr`; machine-level concerns (sockets, threads, logging,
sleeping) are elided as they do not affect the claims' observable data.
-/

namespace Dsul

/-- Python values that can occur inside IPC messages (JSON-shaped data):
strings, integers, lists and string-keyed dicts. -/
inductive Val where
  | str : String → Val
  | int : Int → Val
  | list : List Val → Val
  | dict : List (String × Val) → Val

/-- Exceptions raised by `ipc.py`'s deserializer (`UnknownMessage` wraps a
`KeyError`, `InvalidSerialization` wraps a `TypeError`). -/
inductive IpcErr where
  | unknownMessage
  | invalidSerialization
deriving DecidableEq, Repr

/-- The `Message` hierarchy of `ipc.py`: `Event(event_type, **properties)`
and `Response(text)`.  The constructor arguments are arbitrary Python
values, hence `Val`. -/
inductive Message where
  | event (type_ : Val) (properties : List (String × Val))
  | response (text : Val)

/-- Lookup `d[k]` on a Python dict, as an `Option` (missing key = `KeyError`). -/
def plookup (d : List (String × Val)) (k : String) : Option Val :=
  (d.find? (fun p => p.1 = k)).map (fun p => p.2)

/-- Model of `Message.serialize` (ipc.py): `{"class": type(self).__name__,
"args": args, "kwargs": kwargs}` where `Event._get_args` returns
`([self.type], self.properties)` and `Response._get_args` returns
`([self.text], {})`. -/
def Message.serialize : Message → Val
  | .event t props =>
      .dict [("class", .str "Event"), ("args", .list [t]),
             ("kwargs", .dict props)]
  | .response txt =>
      .dict [("class", .str "Response"), ("args", .list [txt]),
             ("kwargs", .dict [])]

/-- One raw object of `Message.deserialize` (ipc.py):
`classmap[obj["class"]](obj["args"], **obj["kwargs"])` with
`KeyError ↦ UnknownMessage` and `TypeError ↦ InvalidSerialization`.
Evaluation order follows Python: `obj["class"]` (subscripting a non-dict
raises `TypeError`; a missing key raises `KeyError`), then the classmap
lookup (an unhashable key raises `TypeError`, an unknown tag `KeyError`),
then `obj["args"]`, then `obj["kwargs"]` (`**` of a non-mapping raises
`TypeError`), then the constructor call (`Event(event_type, **kw)` raises
`TypeError` when `kw` binds `event_type` twice; `Response(text)` raises
`TypeError` on any keyword argument). -/
def deserializeObj (obj : Val) : Except IpcErr Message :=
  match obj with
  | .dict d =>
    match plookup d "class" with
    | none => .error .unknownMessage
    | some c =>
      match c with
      | .list _ => .error .invalidSerialization
      | .dict _ => .error .invalidSerialization
      | .int _ => .error .unknownMessage
      | .str tag =>
        if tag = "Event" ∨ tag = "Response" then
          match plookup d "args" with
          | none => .error .unknownMessage
          | some args =>
            match plookup d "kwargs" with
            | none => .error .unknownMessage
            | some kwargs =>
              match kwargs with
              | .dict kw =>
                if tag = "Event" then
                  if (kw.find? (fun p => p.1 = "event_type")).isSome then
                    .error .invalidSerialization
                  else
                    .ok (.event args kw)
                else
                  match kw with
                  | [] => .ok (.response args)
                  | _ :: _ => .error .invalidSerialization
              | _ => .error .invalidSerialization
        else
          .error .unknownMessage
  | _ => .error .invalidSerialization

/-- Model of `Message.deserialize` (ipc.py) over a list of objects; an element that
already is a `Message` instance is kept as-is (the `isinstance` branch). -/
def deserialize (objects : List (Message ⊕ Val)) :
    Except IpcErr (List Message) :=
  match objects with
  | [] => .ok []
  | .inl m :: rest => do
      let tail ← deserialize rest
      return m :: tail
  | .inr v :: rest => do
      let m ← deserializeObj v
      let tail ← deserialize rest
      return m :: tail

/-! ### Serial frame reading (`DsulDaemon.read_serial`, daemon.py) -/

/-- The inner read loop of `read_serial`: one underlying `ser.read(i)` per
iteration with `i = max(1, min(2048, in_waiting))`, which returns the
first `i` pending device bytes (an empty read when nothing is pending,
matching a timed-out blocking read).  When a chunk contains `#` the code
computes `read = serial_input_buffer + data[:i+1]`, assigns
`serial_input_buffer[0:] = data[i+1:]` and then immediately rebinds
`serial_input_buffer = bytearray()`, so the returned triple has an empty
buffer component; otherwise the chunk is appended to the buffer and the
loop repeats.  `fuel` bounds the loop, which the Python code leaves
unbounded; `none` models non-termination within `fuel` reads.  Returns
`(frame, new buffer, bytes still pending)`. -/
def read_serial_loop (oracleFuel : Nat) (buf pending : List Char) :
    Option (List Char × List Char × List Char) :=
  match oracleFuel with
  | 0 => none
  | fuel + 1 =>
    let n := max 1 (min 2048 pending.length)
    let data := pending.take n
    let rest := pending.drop n
    match data.findIdx? (fun c => c = '#') with
    | some i => some (buf ++ data.take (i + 1), [], rest)
    | none => read_serial_loop fuel (buf ++ data) rest

/-- Model of `DsulDaemon.read_serial` (daemon.py): first look for `#` in the
retained `serial_input_buffer`; if found, return the buffer up to and
including it and keep the remainder; otherwise enter the read loop. -/
def read_serial (fuel : Nat) (buf pending : List Char) :
    Option (List Char × List Char × List Char) :=
  match buf.findIdx? (fun c => c = '#') with
  | some i => some (buf.take (i + 1), buf.drop (i + 1), pending)
  | none => read_serial_loop fuel buf pending

/-! ### Python primitives used by the daemon -/

/-- Python exceptions that can escape the daemon's handler code. -/
inductive PyErr where
  | valueError
  | typeError
  | keyError
  | nameError
  | attributeError
  | indexError
deriving DecidableEq, Repr

/-- Python whitespace stripped by `int(str)` (ASCII subset). -/
def isPyWs (c : Char) : Bool :=
  c = ' ' ∨ c = '\t' ∨ c = '\n' ∨ c = '\r' ∨ c = '\x0b' ∨ c = '\x0c'

/-- Digit tail of a Python integer literal: digits with single
underscores allowed between digits. -/
def parseDigits : List Char → Nat → Option Nat
  | [], acc => some acc
  | '_' :: c :: cs, acc =>
      if c.isDigit then parseDigits cs (acc * 10 + (c.toNat - 48)) else none
  | c :: cs, acc =>
      if c.isDigit then parseDigits cs (acc * 10 + (c.toNat - 48)) else none

/-- Python `int(s)` on a string: strip whitespace, optional sign, then a
nonempty digit sequence; `none` models the `ValueError` raised
otherwise (e.g. `int("abc")`, `int("50.5")`). -/
def pyInt (s : String) : Option Int :=
  let cs := s.toList.dropWhile isPyWs
  let cs := (cs.reverse.dropWhile isPyWs).reverse
  match cs with
  | '+' :: c :: rest =>
      if c.isDigit then (parseDigits rest (c.toNat - 48)).map Int.ofNat
      else none
  | '-' :: c :: rest =>
      if c.isDigit then (parseDigits rest (c.toNat - 48)).map
        (fun n => -(Int.ofNat n))
      else none
  | c :: rest =>
      if c.isDigit then (parseDigits rest (c.toNat - 48)).map Int.ofNat
      else none
  | [] => none

/-- Python `int(value)` on a message value: an `int` passes through, a
string is parsed (`ValueError` on failure), a list or dict raises
`TypeError`. -/
def pyIntVal : Val → Except PyErr Int
  | .int n => .ok n
  | .str v =>
      match pyInt v with
      | some n => .ok n
      | none => .error .valueError
  | .list _ => .error .typeError
  | .dict _ => .error .typeError

/-- Left-pad with zeros to width `w`. -/
def padZeros (w : Nat) (s : String) : String :=
  if s.length ≥ w then s
  else String.mk (List.replicate (w - s.length) '0') ++ s

/-- Python `"{:0Nd}".format(v)`: zero-padded to total width `w`, the sign
counting towards the width, never truncating. -/
def pyFmt0d (w : Nat) (v : Int) : String :=
  if v < 0 then "-" ++ padZeros (w - 1) (toString v.natAbs)
  else padZeros w (toString v.natAbs)

mutual

/-- Python `repr` of a message value (string escaping elided: the values
exercised here contain no quotes or control characters). -/
def pyRepr : Val → String
  | .str v => "'" ++ v ++ "'"
  | .int n => toString n
  | .list l => "[" ++ pyReprList l ++ "]"
  | .dict d => "\x7b" ++ pyReprDict d ++ "\x7d"

def pyReprList : List Val → String
  | [] => ""
  | [v] => pyRepr v
  | v :: rest => pyRepr v ++ ", " ++ pyReprList rest

def pyReprDict : List (String × Val) → String
  | [] => ""
  | [(k, v)] => "'" ++ k ++ "': " ++ pyRepr v
  | (k, v) :: rest => "'" ++ k ++ "': " ++ pyRepr v ++ ", " ++ pyReprDict rest

end

/-- Python `str` of a message value (used by f-string interpolation). -/
def pyStr : Val → String
  | .str v => v
  | v => pyRepr v

/-- Python `v == "lit"` for a message value against a string literal. -/
def Val.isStr (v : Val) (s : String) : Bool :=
  match v with
  | .str t => t = s
  | _ => false

/-- Python `v[0]` on a message value: first character of a string, head
of a list (`IndexError` when empty), `TypeError` for an int,
`KeyError` for a string-keyed dict indexed by `0`. -/
def pyIndex0 : Val → Except PyErr Val
  | .str v =>
      match v.toList with
      | [] => .error .indexError
      | c :: _ => .ok (.str (String.mk [c]))
  | .list [] => .error .indexError
  | .list (v :: _) => .ok v
  | .int _ => .error .typeError
  | .dict _ => .error .keyError

/-! ### Daemon state (`DsulDaemon` attributes, daemon.py) -/

/-- One entry of the `send_commands` queue:
`{"command": ..., "want_reply": ...}`. -/
structure Cmd where
  command : String
  want_reply : Bool
deriving DecidableEq, Repr

/-- The `self.device` dict filled in by `__handle_serial_data`; `none`
stands for a field that is absent or was set to Python `None`. -/
structure DeviceDict where
  version : Option String := none
  leds : Option Nat := none
  brightness_min : Option Nat := none
  brightness_max : Option Nat := none
  current_color : Option String := none
  current_brightness : Option Nat := none
  current_mode : Option Nat := none
  current_dim : Option Nat := none
deriving DecidableEq, Repr

/-- The daemon attributes the claims touch, with the class-attribute /
settings-fallback defaults (`settings.py`).  `current_brightness` is a
`Val` because Python assigns it both strings (from IPC commands) and ints
(from `__update_settings`). -/
structure DaemonState where
  serial_verified : Bool := false
  send_commands : List Cmd := []
  brightness_min : Int := 0
  brightness_max : Int := 150
  modes : List (String × Int) :=
    [("solid", 1), ("blink", 2), ("flash", 3), ("pulse", 4)]
  current_mode : Int := 0
  current_color : String := ""
  current_brightness : Val := .str ""
  current_dim : Int := 0
  device : DeviceDict := {}

/-- Fallback daemon version string (`dsul/__init__.py` when the package
distribution is not installed). -/
def VERSION : String := "0.0.0"

/-! ### Command validators (`__send_*_command`, daemon.py) -/

/-- Worker for `pySplitColon`, accumulating the current piece in
reverse. -/
def splitColonAux : List Char → List Char → List String
  | [], acc => [String.mk acc.reverse]
  | c :: cs, acc =>
      if c = ':' then String.mk acc.reverse :: splitColonAux cs []
      else splitColonAux cs (c :: acc)

/-- Python `value.split(":")`: split on every colon, keeping empty
pieces (`"".split(":") == [""]`). -/
def pySplitColon (s : String) : List String :=
  splitColonAux s.toList []

/-- Model of `DsulDaemon.__send_color_command`: split the value on `":"` into
exactly three channels (a failed unpacking raises `ValueError`, caught,
returning `False` with no state change), set `current_color`, then format
`"+l{:03d}{:03d}{:03d}#"`; a non-integer channel raises `ValueError`
inside the format call, caught, returning `False` — but only after
`current_color` was already overwritten.  A non-string value raises
`AttributeError` at `value.split` (uncaught). -/
def send_color_command (s : DaemonState) (value : Val) :
    Except PyErr (Bool × DaemonState) :=
  match value with
  | .str v =>
    match pySplitColon v with
    | [r, g, b] =>
      let s1 := { s with current_color := v }
      match pyInt r, pyInt g, pyInt b with
      | some ri, some gi, some bi =>
          .ok (true, { s1 with send_commands := s1.send_commands ++
            [⟨"+l" ++ pyFmt0d 3 ri ++ pyFmt0d 3 gi ++ pyFmt0d 3 bi ++ "#",
              true⟩] })
      | _, _, _ => .ok (false, s1)
    | _ => .ok (false, s)
  | _ => .error .attributeError

/-- Model of `DsulDaemon.__send_brightness_command`: `int(value)` (no exception
handler, so a `ValueError`/`TypeError` propagates), then the inclusive
range check against `settings["brightness_min"]`/`["brightness_max"]`;
on success set `current_brightness` to the value as given and enqueue
`"+b{:03d}#"`. -/
def send_brightness_command (s : DaemonState) (value : Val) :
    Except PyErr (Bool × DaemonState) :=
  match pyIntVal value with
  | .error e => .error e
  | .ok v =>
    if s.brightness_min ≤ v ∧ v ≤ s.brightness_max then
      .ok (true, { s with
                   current_brightness := value,
                   send_commands := s.send_commands ++
                     [⟨"+b" ++ pyFmt0d 3 v ++ "#", true⟩] })
    else
      .ok (false, s)

/-- Model of `DsulDaemon.__send_mode_command`: `value in settings["modes"]` (an
unhashable list/dict value raises `TypeError`); a known mode name sets
`current_mode` to its code and enqueues `"+m{:03d}#"`. -/
def send_mode_command (s : DaemonState) (value : Val) :
    Except PyErr (Bool × DaemonState) :=
  match value with
  | .list _ => .error .typeError
  | .dict _ => .error .typeError
  | .int _ => .ok (false, s)
  | .str v =>
    match s.modes.find? (fun p => p.1 = v) with
    | some p =>
        .ok (true, { s with
                     current_mode := p.2,
                     send_commands := s.send_commands ++
                       [⟨"+m" ++ pyFmt0d 3 p.2 ++ "#", true⟩] })
    | none => .ok (false, s)

/-- Model of `DsulDaemon.__send_dim_command`: the guard is
`if value >= 0 or value <= 1` exactly as in the source (`or`, not
`and`); on acceptance set `current_dim` and enqueue `"+d{:01d}#"`. -/
def send_dim_command (s : DaemonState) (value : Int) : Bool × DaemonState :=
  if value ≥ 0 ∨ value ≤ 1 then
    (true, { s with
             current_dim := value,
             send_commands := s.send_commands ++
               [⟨"+d" ++ pyFmt0d 1 value ++ "#", true⟩] })
  else
    (false, s)

/-! ### Command queue processing (`__process_commands`, daemon.py) -/

/-- The inner `while not self.write_serial(...)` retry loop for one
queued command.  `oracle n` is the outcome of the `n`-th `write_serial`
call of the whole drain; `retries` is the enclosing function's local of
the same name, carried in and out exactly as in the source: incremented
per failure, checked with `retries >= 5` (reset to `0` and abort via the
raised exception when reached), and NOT reset on a successful write.
Backoff sleeps are elided.  Returns (written?, next write index, the
`retries` local after this command). -/
def sendOne (oracle : Nat → Bool) (idx retries : Nat) : Bool × Nat × Nat :=
  if oracle idx then (true, idx + 1, retries)
  else if h : retries + 1 ≥ 5 then (false, idx + 1, 0)
  else sendOne oracle (idx + 1) (retries + 1)
termination_by 5 - retries
decreasing_by simp_wf; omega

/-- Model of `DsulDaemon.__process_commands`: pop the queue front-to-back; when
the serial link is active attempt the write through the retry loop (a
dropped command is simply skipped, the exception being caught inside the
loop body); when inactive the command is popped and discarded.  The
reply read (`__get_serial_input`) does not affect which commands are
written and is elided.  Returns (commands actually written in order,
next write index, final `retries` local). -/
def processCommands (oracle : Nat → Bool) (serial_active : Bool) :
    List Cmd → Nat → Nat → List Cmd × Nat × Nat
  | [], idx, r => ([], idx, r)
  | c :: rest, idx, r =>
    if serial_active then
      let res := sendOne oracle idx r
      let tail := processCommands oracle serial_active rest res.2.1 res.2.2
      (if res.1 then c :: tail.1 else tail.1, tail.2)
    else
      processCommands oracle serial_active rest idx r

/-! ### Telemetry decoding (`__handle_serial_data` / `__update_settings`) -/

/-- Elements of the fixed regex patterns in `__handle_serial_data`: a
literal character, `\d`, or any character (the version pattern's third
separator is an unescaped `.`). -/
inductive Pat where
  | lit : Char → Pat
  | digit
  | any

/-- Match the pattern at the start of the input, returning the consumed
characters. -/
def matchHere : List Pat → List Char → Option (List Char)
  | [], _ => some []
  | _ :: _, [] => none
  | p :: ps, c :: cs =>
    let ok : Bool := match p with
                     | .lit l => c = l
                     | .digit => c.isDigit
                     | .any => true
    if ok then (matchHere ps cs).map (fun r => c :: r) else none

/-- Leftmost match, as `re.search`: try each start position from the
left. -/
def reSearch (ps : List Pat) : List Char → Option (List Char)
  | [] => matchHere ps []
  | c :: cs =>
    match matchHere ps (c :: cs) with
    | some r => some r
    | none => reSearch ps cs

/-- Numeric value of a digit string, as Python `int` of a capture. -/
def digitsToNat (cs : List Char) : Nat :=
  cs.foldl (fun acc c => acc * 10 + (c.toNat - 48)) 0

/-- Numeric value of the `len` characters of `cs` starting at `start`
(a capture group of a fixed-shape pattern). -/
def sliceNat (cs : List Char) (start len : Nat) : Nat :=
  digitsToNat ((cs.drop start).take len)

/-- Pattern `v(\d{3})\.(\d{3}).(\d{3})`. -/
def patV : List Pat :=
  [.lit 'v', .digit, .digit, .digit, .lit '.', .digit, .digit, .digit,
   .any, .digit, .digit, .digit]

/-- Pattern `ll(\d{3})`. -/
def patLL : List Pat := [.lit 'l', .lit 'l', .digit, .digit, .digit]

/-- Pattern `lb(\d{3}):(\d{3})`. -/
def patLB : List Pat :=
  [.lit 'l', .lit 'b', .digit, .digit, .digit, .lit ':',
   .digit, .digit, .digit]

/-- Pattern `cc(\d{2})(\d{2})(\d{2})`. -/
def patCC : List Pat :=
  [.lit 'c', .lit 'c', .digit, .digit, .digit, .digit, .digit, .digit]

/-- Pattern `cb(\d{3})`. -/
def patCB : List Pat := [.lit 'c', .lit 'b', .digit, .digit, .digit]

/-- Pattern `cm(\d{3})`. -/
def patCM : List Pat := [.lit 'c', .lit 'm', .digit, .digit, .digit]

/-- Pattern `cd(\d{1})`. -/
def patCD : List Pat := [.lit 'c', .lit 'd', .digit]

/-- Version field: `f"{int(m[1])}.{int(m[2])}.{int(m[3])}"` when the
version pattern matches. -/
def scanVersion (cs : List Char) : Option String :=
  (reSearch patV cs).map (fun m =>
    toString (sliceNat m 1 3) ++ "." ++ toString (sliceNat m 5 3) ++ "."
      ++ toString (sliceNat m 9 3))

/-- LED-count field, `int(ll_match[1])`. -/
def scanLeds (cs : List Char) : Option Nat :=
  (reSearch patLL cs).map (fun m => sliceNat m 2 3)

/-- Brightness bounds, `int(lb_match[1])` and `int(lb_match[2])`. -/
def scanLB (cs : List Char) : Option (Nat × Nat) :=
  (reSearch patLB cs).map (fun m => (sliceNat m 2 3, sliceNat m 6 3))

/-- Current color, `f"{int(cc[1])}:{int(cc[2])}:{int(cc[3])}"`. -/
def scanColor (cs : List Char) : Option String :=
  (reSearch patCC cs).map (fun m =>
    toString (sliceNat m 2 2) ++ ":" ++ toString (sliceNat m 4 2) ++ ":"
      ++ toString (sliceNat m 6 2))

/-- Current brightness, `int(cb_match[1])`. -/
def scanCB (cs : List Char) : Option Nat :=
  (reSearch patCB cs).map (fun m => sliceNat m 2 3)

/-- Current mode, `int(cm_match[1])`. -/
def scanCM (cs : List Char) : Option Nat :=
  (reSearch patCM cs).map (fun m => sliceNat m 2 3)

/-- Current dim, `int(cd_match[1])`. -/
def scanCD (cs : List Char) : Option Nat :=
  (reSearch patCD cs).map (fun m => sliceNat m 2 1)

/-- Python truthiness of an optional int (`None` and `0` are falsy). -/
def truthyNat : Option Nat → Bool
  | some n => n ≠ 0
  | none => false

/-- Python truthiness of an optional string (`None` and `""` are
falsy). -/
def truthyStr : Option String → Bool
  | some v => v ≠ ""
  | none => false

/-- Statement `if self.device["brightness_min"]: settings[...] = ...` of
`__update_settings`; `None` and `0` are falsy and skip the update. -/
def upd_bmin (s : DaemonState) : DaemonState :=
  match s.device.brightness_min with
  | some n => if n ≠ 0 then { s with brightness_min := (n : Int) } else s
  | none => s

/-- Statement `if self.device["brightness_max"]: ...` of
`__update_settings`. -/
def upd_bmax (s : DaemonState) : DaemonState :=
  match s.device.brightness_max with
  | some n => if n ≠ 0 then { s with brightness_max := (n : Int) } else s
  | none => s

/-- Statement `if self.device["current_color"]: ...` of
`__update_settings` (here `""` is the falsy case). -/
def upd_ccol (s : DaemonState) : DaemonState :=
  match s.device.current_color with
  | some v => if v ≠ "" then { s with current_color := v } else s
  | none => s

/-- Statement `if self.device["current_brightness"]: ...` of
`__update_settings`; note the int is assigned to the otherwise
string-valued attribute. -/
def upd_cbri (s : DaemonState) : DaemonState :=
  match s.device.current_brightness with
  | some n => if n ≠ 0 then { s with current_brightness := .int n } else s
  | none => s

/-- Statement `if self.device["current_mode"]: ...` of
`__update_settings`. -/
def upd_cmode (s : DaemonState) : DaemonState :=
  match s.device.current_mode with
  | some n => if n ≠ 0 then { s with current_mode := (n : Int) } else s
  | none => s

/-- Statement `if self.device["current_dim"]: ...` of
`__update_settings`. -/
def upd_cdim (s : DaemonState) : DaemonState :=
  match s.device.current_dim with
  | some n => if n ≠ 0 then { s with current_dim := (n : Int) } else s
  | none => s

/-- Model of `DsulDaemon.__update_settings` (daemon.py): its six `if`
statements in source order.  Each device entry is copied into the
settings / current-state mirror only when it is truthy
(`if self.device[...]:`), so `None` AND zero values are skipped. -/
def update_settings (s : DaemonState) : DaemonState :=
  upd_cdim (upd_cmode (upd_cbri (upd_ccol (upd_bmax (upd_bmin s)))))

/-- Model of `DsulDaemon.__handle_serial_data` (daemon.py): run all seven
pattern searches on the frame, assign EVERY `self.device` entry (the
parsed value when the pattern matched, `None` otherwise), reconcile via
`__update_settings`, and set `serial_verified = True`. -/
def handle_serial_data (s : DaemonState) (data : String) : DaemonState :=
  { update_settings
      { s with
        device := { version := scanVersion data.toList,
                    leds := scanLeds data.toList,
                    brightness_min := (scanLB data.toList).map Prod.fst,
                    brightness_max := (scanLB data.toList).map Prod.snd,
                    current_color := scanColor data.toList,
                    current_brightness := scanCB data.toList,
                    current_mode := scanCM data.toList,
                    current_dim := scanCD data.toList } } with
    serial_verified := true }

/-! ### IPC request handling (`__process_server_request`, daemon.py) -/

/-- Representation of a Python `dict` of ints as by `str()`, used for
`settings["modes"]` inside `give_information`. -/
def intDictReprBody : List (String × Int) → String
  | [] => ""
  | [(k, v)] => "'" ++ k ++ "': " ++ toString v
  | (k, v) :: rest =>
      "'" ++ k ++ "': " ++ toString v ++ ", " ++ intDictReprBody rest

/-- String form of a Python int-valued dict. -/
def intDictRepr (d : List (String × Int)) : String :=
  "\x7b" ++ intDictReprBody d ++ "\x7d"

/-- Python `str()` of an optional string whose `None` prints as
"None" (f-string interpolation of `self.device['version']`). -/
def strOfOptStr : Option String → String
  | some v => v
  | none => "None"

/-- Model of `DsulDaemon.give_information` (daemon.py). -/
def give_information (s : DaemonState) : String :=
  "daemon=" ++ VERSION ++ ";" ++
  "fw=" ++ strOfOptStr s.device.version ++ ";" ++
  "modes=" ++ intDictRepr s.modes ++ ";" ++
  "brightness_min=" ++ toString s.brightness_min ++ ";" ++
  "brightness_max=" ++ toString s.brightness_max ++ ";" ++
  "current_mode=" ++ toString s.current_mode ++ ";" ++
  "current_brightness=" ++ pyStr s.current_brightness ++ ";" ++
  "current_color=" ++ s.current_color ++ ";" ++
  "current_dim=" ++ toString s.current_dim ++ ";"

/-- Model of `DsulDaemon.__get_request_results` (daemon.py): `action`
starts "NOK" and `message` "Invalid request/argument"; a "status" key
answers with the current value for "color"/"brightness"/"mode"/"dim"
(with `action = "OK"` even for an unknown value), an "information" key
with `give_information`.  Missing properties raise `KeyError`.  `str()`
is applied where the enclosing f-string would apply it. -/
def get_request_results (s : DaemonState) (props : List (String × Val)) :
    Except PyErr (String × String) :=
  match plookup props "key" with
  | none => .error .keyError
  | some key =>
    if key.isStr "status" then
      match plookup props "value" with
      | none => .error .keyError
      | some v =>
        if v.isStr "color" then .ok ("OK", s.current_color)
        else if v.isStr "brightness" then
          .ok ("OK", pyStr s.current_brightness)
        else if v.isStr "mode" then .ok ("OK", toString s.current_mode)
        else if v.isStr "dim" then .ok ("OK", toString s.current_dim)
        else .ok ("OK", "Invalid request/argument")
    else if key.isStr "information" then
      .ok ("OK", give_information s)
    else
      .ok ("NOK", "Invalid request/argument")

/-- The function-local variables of `__process_server_request` that the
`for` loop binds and that survive across iterations; `none` means "not
bound yet" (reading it raises `NameError`, as Python's
`UnboundLocalError`). -/
structure Locals where
  action : Option String := none
  message : Option String := none
  valid : Option Bool := none

/-- The `if/elif` dispatch on `properties["key"]` inside the "command"
branch of `__process_server_request`: the matching validator is called
(with `int(...)` applied first for "dim") and its result bound to the
local `valid`; an unrecognized key leaves `valid` untouched. -/
def dispatchCommand (s : DaemonState) (loc : Locals) (key : Val)
    (props : List (String × Val)) : Except PyErr (DaemonState × Locals) :=
  if key.isStr "color" then
    match plookup props "value" with
    | none => .error .keyError
    | some v =>
      match send_color_command s v with
      | .error e => .error e
      | .ok (b, s1) => .ok (s1, { loc with valid := some b })
  else if key.isStr "brightness" then
    match plookup props "value" with
    | none => .error .keyError
    | some v =>
      match send_brightness_command s v with
      | .error e => .error e
      | .ok (b, s1) => .ok (s1, { loc with valid := some b })
  else if key.isStr "mode" then
    match plookup props "value" with
    | none => .error .keyError
    | some v =>
      match send_mode_command s v with
      | .error e => .error e
      | .ok (b, s1) => .ok (s1, { loc with valid := some b })
  else if key.isStr "dim" then
    match plookup props "value" with
    | none => .error .keyError
    | some v =>
      match pyIntVal v with
      | .error e => .error e
      | .ok vi =>
        let r := send_dim_command s vi
        .ok (r.2, { loc with valid := some r.1 })
  else
    .ok (s, loc)

/-- One iteration of the `for message_object in objects` loop of
`__process_server_request`: a Response object raises `AttributeError`
at `.type`; `type[0]` selects the branch; the "command" branch sets
`action = "ACK"`, dispatches on the key, recomputes
`f"{properties['key']}={properties['value']}"`, and reads the local
`valid` (raising `NameError` when it was never bound). -/
def processOne (s : DaemonState) (loc : Locals) (m : Message) :
    Except PyErr (DaemonState × Locals) :=
  match m with
  | .response _ => .error .attributeError
  | .event t props =>
    match pyIndex0 t with
    | .error e => .error e
    | .ok t0 =>
      if t0.isStr "command" then
        let loc1 := { loc with action := some "ACK" }
        match plookup props "key" with
        | none => .error .keyError
        | some key =>
          match dispatchCommand s loc1 key props with
          | .error e => .error e
          | .ok (s1, loc2) =>
            match plookup props "value" with
            | none => .error .keyError
            | some value =>
              match loc2.valid with
              | none => .error .nameError
              | some b =>
                .ok (s1, { loc2 with
                           message := some (if b then
                             pyStr key ++ "=" ++ pyStr value
                           else "Invalid command/argument") })
      else if t0.isStr "request" then
        match get_request_results s props with
        | .error e => .error e
        | .ok (a, msg) =>
            .ok (s, { loc with action := some a, message := some msg })
      else
        .ok (s, { loc with
                  action := some "ACK",
                  message := some "Unknown event type" })

/-- The whole `for` loop of `__process_server_request`, threading daemon
state and the function locals through the batch. -/
def runBatch (s : DaemonState) (loc : Locals) :
    List Message → Except PyErr (DaemonState × Locals)
  | [] => .ok (s, loc)
  | m :: rest =>
    match processOne s loc m with
    | .error e => .error e
    | .ok (s1, loc1) => runBatch s1 loc1 rest

/-- Model of `DsulDaemon.__process_server_request` (daemon.py): when
`serial_verified` is false, answer `[Response("ACK, No serial
connection")]` without touching anything; otherwise run the loop over
the batch and build the single response
`[Response(f"{action}, {message}")]` from the final loop locals
(a `NameError` when the batch never bound them, e.g. an empty batch). -/
def process_server_request (s : DaemonState) (objects : List Message) :
    Except PyErr (DaemonState × List Message) :=
  if s.serial_verified then
    match runBatch s {} objects with
    | .error e => .error e
    | .ok (s1, loc) =>
      match loc.action, loc.message with
      | some a, some msg =>
          .ok (s1, [.response (.str (a ++ ", " ++ msg))])
      | _, _ => .error .nameError
  else
    .ok (s, [.response (.str "ACK, No serial connection")])

/-- C1 counterexample: the round-trip law fails as stated.  Serializing
the Event with discriminant string "command" and property map
`{key: "color"}` and deserializing it back yields an Event whose `type`
field is the one-element list `["command"]`, not the original string
"command" (the deserializer passes the whole `args` list as the single
positional constructor argument). -/
theorem c1_roundtrip_counterexample :
    deserialize [Sum.inr (Message.serialize
        (.event (.str "command") [("key", Val.str "color")]))]
      = .ok [.event (.list [.str "command"]) [("key", Val.str "color")]]
    ∧ Message.event (Val.list [Val.str "command"]) [("key", Val.str "color")]
        ≠ Message.event (Val.str "command") [("key", Val.str "color")] := by
  refine ⟨rfl, fun h => ?_⟩
  injection h with h1 _
  exact Val.noConfusion h1

/-- C1 (amended): deserializing the serialization of a constructed Event
whose property map does not use the key "event_type" yields an Event with
the same property map but with `type` equal to the singleton list
containing the original discriminant; deserializing the serialization of
a constructed Response yields a Response whose `text` is the singleton
list containing the original text. -/
theorem c1_roundtrip_amended (t txt : Val) (props : List (String × Val))
    (h : props.find? (fun p => p.1 = "event_type") = none) :
    deserialize [Sum.inr (Message.serialize (.event t props))]
      = .ok [.event (.list [t]) props]
    ∧ deserialize [Sum.inr (Message.serialize (.response txt))]
      = .ok [.response (.list [txt])] := by
  constructor
  · have hobj : deserializeObj (Message.serialize (.event t props))
        = .ok (.event (.list [t]) props) := by
      simp [Message.serialize, deserializeObj, plookup, List.find?, h]
    simp [deserialize, hobj]
    rfl
  · rfl

/-- Witness for `c1_roundtrip_amended` at a concrete Event and Response. -/
theorem c1_roundtrip_amended_witness :
    deserialize [Sum.inr (Message.serialize
        (.event (.str "command") [("key", Val.str "color")]))]
      = .ok [.event (.list [.str "command"]) [("key", Val.str "color")]]
    ∧ deserialize [Sum.inr (Message.serialize (.response (.str "OK, done")))]
      = .ok [.response (.list [.str "OK, done"])] :=
  c1_roundtrip_amended (.str "command") (.str "OK, done")
    [("key", Val.str "color")] rfl

/-- C8 counterexample: a structurally invalid object missing the required
"args" field raises `UnknownMessage` (the missing key is a `KeyError`,
caught in the same handler as an unknown tag), not `InvalidSerialization`
as claimed. -/
theorem c8_error_counterexample :
    deserializeObj (.dict [("class", Val.str "Event")])
      = .error .unknownMessage
    ∧ IpcErr.unknownMessage ≠ IpcErr.invalidSerialization :=
  ⟨rfl, by decide⟩

/-- C8 (amended): `deserializeObj` raises `UnknownMessage` both for an
unregistered discriminant tag and for an object missing any of the
required fields "class", "args" or "kwargs" (all of these are `KeyError`
paths); `InvalidSerialization` is raised only when the fields do not fit
the constructor call, e.g. when "kwargs" is present but is not a dict. -/
theorem c8_error_discrimination (d : List (String × Val)) (tag : String)
    (args v : Val) :
    (plookup d "class" = none →
        deserializeObj (.dict d) = .error .unknownMessage)
    ∧ (plookup d "class" = some (.str tag) → tag ≠ "Event" →
        tag ≠ "Response" →
        deserializeObj (.dict d) = .error .unknownMessage)
    ∧ (plookup d "class" = some (.str tag) →
        (tag = "Event" ∨ tag = "Response") → plookup d "args" = none →
        deserializeObj (.dict d) = .error .unknownMessage)
    ∧ (plookup d "class" = some (.str tag) →
        (tag = "Event" ∨ tag = "Response") →
        plookup d "args" = some args → plookup d "kwargs" = none →
        deserializeObj (.dict d) = .error .unknownMessage)
    ∧ (plookup d "class" = some (.str tag) →
        (tag = "Event" ∨ tag = "Response") →
        plookup d "args" = some args → plookup d "kwargs" = some v →
        (∀ kw, v ≠ .dict kw) →
        deserializeObj (.dict d) = .error .invalidSerialization) := by
  refine ⟨fun h1 => ?_, fun h1 h2 h3 => ?_, fun h1 h2 h3 => ?_,
          fun h1 h2 h3 h4 => ?_, fun h1 h2 h3 h4 h5 => ?_⟩
  · simp [deserializeObj, h1]
  · simp [deserializeObj, h1, h2, h3]
  · simp [deserializeObj, h1, h2, h3]
  · simp [deserializeObj, h1, h2, h3, h4]
  · cases v with
    | str s => simp [deserializeObj, h1, h2, h3, h4]
    | int n => simp [deserializeObj, h1, h2, h3, h4]
    | list l => simp [deserializeObj, h1, h2, h3, h4]
    | dict kw => exact absurd rfl (h5 kw)

/-- Witness for `c8_error_discrimination`: concrete objects hitting the
missing-"class", unknown-tag, missing-"args" and non-dict-"kwargs"
branches. -/
theorem c8_error_discrimination_witness :
    deserializeObj (.dict []) = .error .unknownMessage
    ∧ deserializeObj (.dict [("class", Val.str "Foo")])
        = .error .unknownMessage
    ∧ deserializeObj (.dict [("class", Val.str "Event"),
        ("args", Val.int 0)]) = .error .unknownMessage
    ∧ deserializeObj (.dict [("class", Val.str "Event"),
        ("args", Val.int 0), ("kwargs", Val.int 0)])
        = .error .invalidSerialization :=
  ⟨(c8_error_discrimination [] "T" (.int 0) (.int 0)).1 rfl,
   (c8_error_discrimination [("class", Val.str "Foo")] "Foo"
      (.int 0) (.int 0)).2.1 rfl (by decide) (by decide),
   (c8_error_discrimination [("class", Val.str "Event"), ("args", Val.int 0)]
      "Event" (.int 0) (.int 0)).2.2.2.1 rfl (Or.inl rfl) rfl rfl,
   (c8_error_discrimination [("class", Val.str "Event"), ("args", Val.int 0),
      ("kwargs", Val.int 0)] "Event" (.int 0) (.int 0)).2.2.2.2 rfl
      (Or.inl rfl) rfl rfl (fun kw h => Val.noConfusion h)⟩

/-- Helper: with an empty buffer and nothing pending the read loop spins
(empty reads) without ever producing a frame, whatever the fuel. -/
theorem read_serial_loop_starved (fuel : Nat) :
    read_serial_loop fuel [] [] = none := by
  induction fuel with
  | zero => rfl
  | succ n ih => simpa [read_serial_loop] using ih

/-- C2: evaluation of `read_serial` at the failing input.  With an empty
buffer and the device delivering `b"ab#cd#"` in one read, the call
returns the frame "ab#" with an EMPTY buffer — the excess "cd#" is
discarded (the slice stored into `serial_input_buffer` is immediately
clobbered by the fresh `bytearray()`), so a further call starves instead
of returning "cd#"; feeding the same bytes split as "ab#" then "cd#"
yields both frames.  Split-invariance fails and excess bytes are lost. -/
theorem c2_frame_loss :
    read_serial 4 [] ("ab#cd#".toList) = some ("ab#".toList, [], [])
    ∧ (∀ fuel, read_serial fuel [] [] = none)
    ∧ read_serial 4 [] ("ab#".toList) = some ("ab#".toList, [], [])
    ∧ read_serial 4 [] ("cd#".toList) = some ("cd#".toList, [], []) := by
  refine ⟨rfl, fun fuel => read_serial_loop_starved fuel, rfl, rfl⟩

/-- C3 counterexample: a batch of two "request" Events produces one
single Response (`response = [Response(...)]` is built once, after the
loop), not two. -/
theorem c3_batch_counterexample :
    process_server_request { serial_verified := true }
        [.event (.list [.str "request"])
           [("key", Val.str "status"), ("value", Val.str "mode")],
         .event (.list [.str "request"])
           [("key", Val.str "status"), ("value", Val.str "mode")]]
      = .ok ({ serial_verified := true }, [.response (.str "OK, 0")])
    ∧ [Message.response (Val.str "OK, 0")].length ≠ 2 :=
  ⟨rfl, by decide⟩

/-- C3 (amended): whenever `__process_server_request` returns at all, the
response batch has length exactly 1, regardless of how many Events the
request batch held. -/
theorem c3_single_response (s : DaemonState) (objects : List Message)
    (s1 : DaemonState) (resp : List Message)
    (h : process_server_request s objects = .ok (s1, resp)) :
    resp.length = 1 := by
  unfold process_server_request at h
  split at h
  · split at h
    · exact absurd h (by simp)
    · split at h
      · simp only [Except.ok.injEq, Prod.mk.injEq] at h
        rw [← h.2]
        rfl
      · exact absurd h (by simp)
  · simp only [Except.ok.injEq, Prod.mk.injEq] at h
    rw [← h.2]
    rfl

/-- Witness for `c3_single_response` at a concrete call (unverified
state, empty batch). -/
theorem c3_single_response_witness :
    ([Message.response (Val.str "ACK, No serial connection")]).length = 1 :=
  c3_single_response {} [] {}
    [.response (.str "ACK, No serial connection")] rfl

/-- C4: with `serial_verified` false the handler returns exactly the one
Response "ACK, No serial connection" and the daemon state — in
particular the `send_commands` queue — is returned untouched. -/
theorem c4_unverified_gate (s : DaemonState) (objects : List Message)
    (h : s.serial_verified = false) :
    process_server_request s objects
      = .ok (s, [.response (.str "ACK, No serial connection")])
    ∧ ∀ s1 resp, process_server_request s objects = .ok (s1, resp) →
        s1.send_commands = s.send_commands := by
  have h1 : process_server_request s objects
      = .ok (s, [.response (.str "ACK, No serial connection")]) := by
    simp [process_server_request, h]
  refine ⟨h1, fun s1 resp he => ?_⟩
  rw [h1] at he
  simp only [Except.ok.injEq, Prod.mk.injEq] at he
  rw [← he.1]

/-- Witness for `c4_unverified_gate`: the default daemon state (serial
not verified) with a one-Event batch. -/
theorem c4_unverified_gate_witness :
    process_server_request {}
        [.event (.list [.str "command"])
           [("key", Val.str "dim"), ("value", Val.str "1")]]
      = .ok ({}, [.response (.str "ACK, No serial connection")]) :=
  (c4_unverified_gate {} _ rfl).1

/-- C5: evaluation of the command drain at the failing input.  The write
oracle fails attempts 0-2 and succeeds on 3 and 6.  Command A is written
after 3 failed attempts, but the `retries` local is not reset, so B is
dropped after only its 2nd failed attempt (cumulative count reaches 5),
and the drain then proceeds to write C.  The second conjunct shows the
same two-failures-then-success pattern IS written when the budget is
fresh, so B's drop is caused solely by A's leftover count. -/
theorem c5_shared_retry_budget :
    processCommands (fun n => n == 3 || n == 6) true
        [⟨"+b050#", true⟩, ⟨"+d1#", true⟩, ⟨"+m001#", true⟩] 0 0
      = ([⟨"+b050#", true⟩, ⟨"+m001#", true⟩], 7, 0)
    ∧ processCommands (fun n => n == 2) true [⟨"+d1#", true⟩] 0 0
      = ([⟨"+d1#", true⟩], 3, 2) := by
  constructor <;> simp [processCommands, sendOne]

/-- C6 counterexample: a telemetry frame in which the version pattern is
absent does NOT leave the prior DeviceState version entry untouched — it
overwrites it with `None` (every field is reassigned on every frame). -/
theorem c6_absent_field_counterexample :
    (handle_serial_data { device := { version := some "1.2.3" } }
        "ll005#").device.version = none
    ∧ (some "1.2.3" : Option String) ≠ none :=
  ⟨rfl, by decide⟩

/-- Helper: effect of the `brightness_min` statement of
`__update_settings` on every state field. -/
theorem upd_bmin_spec (s : DaemonState) :
    (upd_bmin s).device = s.device
    ∧ (upd_bmin s).serial_verified = s.serial_verified
    ∧ (upd_bmin s).send_commands = s.send_commands
    ∧ (upd_bmin s).brightness_min
        = (match s.device.brightness_min with
           | some n => if n ≠ 0 then (n : Int) else s.brightness_min
           | none => s.brightness_min)
    ∧ (upd_bmin s).brightness_max = s.brightness_max
    ∧ (upd_bmin s).current_color = s.current_color
    ∧ (upd_bmin s).current_brightness = s.current_brightness
    ∧ (upd_bmin s).current_mode = s.current_mode
    ∧ (upd_bmin s).current_dim = s.current_dim := by
  rcases h : s.device.brightness_min with _ | n <;>
    simp only [upd_bmin, h] <;>
      first
        | (split_ifs <;> simp_all)
        | simp_all

/-- Helper: effect of the `brightness_max` statement of
`__update_settings` on every state field. -/
theorem upd_bmax_spec (s : DaemonState) :
    (upd_bmax s).device = s.device
    ∧ (upd_bmax s).serial_verified = s.serial_verified
    ∧ (upd_bmax s).send_commands = s.send_commands
    ∧ (upd_bmax s).brightness_min = s.brightness_min
    ∧ (upd_bmax s).brightness_max
        = (match s.device.brightness_max with
           | some n => if n ≠ 0 then (n : Int) else s.brightness_max
           | none => s.brightness_max)
    ∧ (upd_bmax s).current_color = s.current_color
    ∧ (upd_bmax s).current_brightness = s.current_brightness
    ∧ (upd_bmax s).current_mode = s.current_mode
    ∧ (upd_bmax s).current_dim = s.current_dim := by
  rcases h : s.device.brightness_max with _ | n <;>
    simp only [upd_bmax, h] <;>
      first
        | (split_ifs <;> simp_all)
        | simp_all

/-- Helper: effect of the `current_color` statement of
`__update_settings` on every state field. -/
theorem upd_ccol_spec (s : DaemonState) :
    (upd_ccol s).device = s.device
    ∧ (upd_ccol s).serial_verified = s.serial_verified
    ∧ (upd_ccol s).send_commands = s.send_commands
    ∧ (upd_ccol s).brightness_min = s.brightness_min
    ∧ (upd_ccol s).brightness_max = s.brightness_max
    ∧ (upd_ccol s).current_color
        = (match s.device.current_color with
           | some v => if v ≠ "" then v else s.current_color
           | none => s.current_color)
    ∧ (upd_ccol s).current_brightness = s.current_brightness
    ∧ (upd_ccol s).current_mode = s.current_mode
    ∧ (upd_ccol s).current_dim = s.current_dim := by
  rcases h : s.device.current_color with _ | v <;>
    simp only [upd_ccol, h] <;>
      first
        | (split_ifs <;> simp_all)
        | simp_all

/-- Helper: effect of the `current_brightness` statement of
`__update_settings` on every state field. -/
theorem upd_cbri_spec (s : DaemonState) :
    (upd_cbri s).device = s.device
    ∧ (upd_cbri s).serial_verified = s.serial_verified
    ∧ (upd_cbri s).send_commands = s.send_commands
    ∧ (upd_cbri s).brightness_min = s.brightness_min
    ∧ (upd_cbri s).brightness_max = s.brightness_max
    ∧ (upd_cbri s).current_color = s.current_color
    ∧ (upd_cbri s).current_brightness
        = (match s.device.current_brightness with
           | some n => if n ≠ 0 then Val.int n else s.current_brightness
           | none => s.current_brightness)
    ∧ (upd_cbri s).current_mode = s.current_mode
    ∧ (upd_cbri s).current_dim = s.current_dim := by
  rcases h : s.device.current_brightness with _ | n <;>
    simp only [upd_cbri, h] <;>
      first
        | (split_ifs <;> simp_all)
        | simp_all

/-- Helper: effect of the `current_mode` statement of
`__update_settings` on every state field. -/
theorem upd_cmode_spec (s : DaemonState) :
    (upd_cmode s).device = s.device
    ∧ (upd_cmode s).serial_verified = s.serial_verified
    ∧ (upd_cmode s).send_commands = s.send_commands
    ∧ (upd_cmode s).brightness_min = s.brightness_min
    ∧ (upd_cmode s).brightness_max = s.brightness_max
    ∧ (upd_cmode s).current_color = s.current_color
    ∧ (upd_cmode s).current_brightness = s.current_brightness
    ∧ (upd_cmode s).current_mode
        = (match s.device.current_mode with
           | some n => if n ≠ 0 then (n : Int) else s.current_mode
           | none => s.current_mode)
    ∧ (upd_cmode s).current_dim = s.current_dim := by
  rcases h : s.device.current_mode with _ | n <;>
    simp only [upd_cmode, h] <;>
      first
        | (split_ifs <;> simp_all)
        | simp_all

/-- Helper: effect of the `current_dim` statement of `__update_settings`
on every state field. -/
theorem upd_cdim_spec (s : DaemonState) :
    (upd_cdim s).device = s.device
    ∧ (upd_cdim s).serial_verified = s.serial_verified
    ∧ (upd_cdim s).send_commands = s.send_commands
    ∧ (upd_cdim s).brightness_min = s.brightness_min
    ∧ (upd_cdim s).brightness_max = s.brightness_max
    ∧ (upd_cdim s).current_color = s.current_color
    ∧ (upd_cdim s).current_brightness = s.current_brightness
    ∧ (upd_cdim s).current_mode = s.current_mode
    ∧ (upd_cdim s).current_dim
        = (match s.device.current_dim with
           | some n => if n ≠ 0 then (n : Int) else s.current_dim
           | none => s.current_dim) := by
  rcases h : s.device.current_dim with _ | n <;>
    simp only [upd_cdim, h] <;>
      first
        | (split_ifs <;> simp_all)
        | simp_all

/-- Helper: behaviour of `__update_settings` on an arbitrary state — the
device dict, queue and verification flag are untouched, and every mirror
entry is overwritten exactly when the corresponding device entry is
truthy (non-`None` and non-zero / non-empty). -/
theorem update_settings_spec (s : DaemonState) :
    (update_settings s).device = s.device
    ∧ (update_settings s).serial_verified = s.serial_verified
    ∧ (update_settings s).send_commands = s.send_commands
    ∧ (update_settings s).brightness_min
        = (match s.device.brightness_min with
           | some n => if n ≠ 0 then (n : Int) else s.brightness_min
           | none => s.brightness_min)
    ∧ (update_settings s).brightness_max
        = (match s.device.brightness_max with
           | some n => if n ≠ 0 then (n : Int) else s.brightness_max
           | none => s.brightness_max)
    ∧ (update_settings s).current_color
        = (match s.device.current_color with
           | some v => if v ≠ "" then v else s.current_color
           | none => s.current_color)
    ∧ (update_settings s).current_brightness
        = (match s.device.current_brightness with
           | some n => if n ≠ 0 then Val.int n else s.current_brightness
           | none => s.current_brightness)
    ∧ (update_settings s).current_mode
        = (match s.device.current_mode with
           | some n => if n ≠ 0 then (n : Int) else s.current_mode
           | none => s.current_mode)
    ∧ (update_settings s).current_dim
        = (match s.device.current_dim with
           | some n => if n ≠ 0 then (n : Int) else s.current_dim
           | none => s.current_dim) := by
  obtain ⟨d1, v1, q1, a1, b1, c1, e1, f1, g1⟩ := upd_bmin_spec s
  obtain ⟨d2, v2, q2, a2, b2, c2, e2, f2, g2⟩ :=
    upd_bmax_spec (upd_bmin s)
  obtain ⟨d3, v3, q3, a3, b3, c3, e3, f3, g3⟩ :=
    upd_ccol_spec (upd_bmax (upd_bmin s))
  obtain ⟨d4, v4, q4, a4, b4, c4, e4, f4, g4⟩ :=
    upd_cbri_spec (upd_ccol (upd_bmax (upd_bmin s)))
  obtain ⟨d5, v5, q5, a5, b5, c5, e5, f5, g5⟩ :=
    upd_cmode_spec (upd_cbri (upd_ccol (upd_bmax (upd_bmin s))))
  obtain ⟨d6, v6, q6, a6, b6, c6, e6, f6, g6⟩ :=
    upd_cdim_spec (upd_cmode (upd_cbri (upd_ccol (upd_bmax (upd_bmin s)))))
  unfold update_settings
  refine ⟨?_, ?_, ?_, ?_, ?_, ?_, ?_, ?_, ?_⟩ <;>
    simp only [d1, d2, d3, d4, d5, d6, v1, v2, v3, v4, v5, v6,
               q1, q2, q3, q4, q5, q6, a1, a2, a3, a4, a5, a6,
               b1, b2, b3, b4, b5, b6, c1, c2, c3, c4, c5, c6,
               e1, e2, e3, e4, e5, e6, f1, f2, f3, f4, f5, f6,
               g1, g2, g3, g4, g5, g6]

/-- C6 (amended): decoding a telemetry frame reassigns every
`self.device` entry — the parsed value when its pattern matches, `None`
when it does not — and then propagates into the mirrored
settings/current state only the truthy values: a matched field whose
value is `0` (or an empty string) leaves the mirror unchanged, and an
absent field leaves the mirror unchanged. -/
theorem c6_telemetry_update (s : DaemonState) (data : String) :
    (handle_serial_data s data).device.version = scanVersion data.toList
    ∧ (handle_serial_data s data).device.leds = scanLeds data.toList
    ∧ (handle_serial_data s data).device.brightness_min
        = (scanLB data.toList).map Prod.fst
    ∧ (handle_serial_data s data).device.brightness_max
        = (scanLB data.toList).map Prod.snd
    ∧ (handle_serial_data s data).device.current_color
        = scanColor data.toList
    ∧ (handle_serial_data s data).device.current_brightness
        = scanCB data.toList
    ∧ (handle_serial_data s data).device.current_mode = scanCM data.toList
    ∧ (handle_serial_data s data).device.current_dim = scanCD data.toList
    ∧ (handle_serial_data s data).serial_verified = true
    ∧ (handle_serial_data s data).brightness_min
        = (match (scanLB data.toList).map Prod.fst with
           | some n => if n ≠ 0 then (n : Int) else s.brightness_min
           | none => s.brightness_min)
    ∧ (handle_serial_data s data).brightness_max
        = (match (scanLB data.toList).map Prod.snd with
           | some n => if n ≠ 0 then (n : Int) else s.brightness_max
           | none => s.brightness_max)
    ∧ (handle_serial_data s data).current_color
        = (match scanColor data.toList with
           | some v => if v ≠ "" then v else s.current_color
           | none => s.current_color)
    ∧ (handle_serial_data s data).current_brightness
        = (match scanCB data.toList with
           | some n => if n ≠ 0 then Val.int n else s.current_brightness
           | none => s.current_brightness)
    ∧ (handle_serial_data s data).current_mode
        = (match scanCM data.toList with
           | some n => if n ≠ 0 then (n : Int) else s.current_mode
           | none => s.current_mode)
    ∧ (handle_serial_data s data).current_dim
        = (match scanCD data.toList with
           | some n => if n ≠ 0 then (n : Int) else s.current_dim
           | none => s.current_dim) := by
  obtain ⟨hdev, hver, hsend, hbmin, hbmax, hccol, hcbri, hcmode, hcdim⟩ :=
    update_settings_spec
      { s with
        device := { version := scanVersion data.toList,
                    leds := scanLeds data.toList,
                    brightness_min := (scanLB data.toList).map Prod.fst,
                    brightness_max := (scanLB data.toList).map Prod.snd,
                    current_color := scanColor data.toList,
                    current_brightness := scanCB data.toList,
                    current_mode := scanCM data.toList,
                    current_dim := scanCD data.toList } }
  refine ⟨?_, ?_, ?_, ?_, ?_, ?_, ?_, ?_, ?_, ?_, ?_, ?_, ?_, ?_⟩ <;>
    (simp only [handle_serial_data, hdev, hbmin, hbmax, hccol, hcbri,
                hcmode, hcdim]
     try simp)

/-- C7: evaluation of the dim validator.  The guard
`value >= 0 or value <= 1` is a tautology over the integers, so EVERY
dim value is accepted and enqueued — including the failing input 2,
which enqueues "+d2#" and sets `current_dim = 2` instead of being
rejected. -/
theorem c7_dim_guard_tautology (s : DaemonState) (v : Int) :
    (send_dim_command s v).1 = true
    ∧ (send_dim_command s v).2.send_commands
        = s.send_commands ++ [⟨"+d" ++ pyFmt0d 1 v ++ "#", true⟩]
    ∧ (send_dim_command s 2).2.send_commands
        = s.send_commands ++ [⟨"+d2#", true⟩]
    ∧ (send_dim_command s 2).2.current_dim = 2 := by
  have hc : v ≥ 0 ∨ v ≤ 1 := by omega
  have hc2 : (2 : Int) ≥ 0 ∨ (2 : Int) ≤ 1 := by omega
  have hf : "+d" ++ pyFmt0d 1 2 ++ "#" = "+d2#" := rfl
  refine ⟨?_, ?_, ?_, ?_⟩ <;> simp [send_dim_command, hc, hc2, hf]

/-- C9 counterexample: the claim fails for a batch whose unrecognized
command key is preceded by a recognized one.  The first (color) Event
binds the loop-local `valid`; the second Event's key "foo" matches no
branch, so the stale `valid = True` is reused: no `NameError` is raised
and a Response "ACK, foo=bar" is produced. -/
theorem c9_stale_valid_counterexample :
    process_server_request { serial_verified := true }
        [.event (.list [.str "command"])
           [("key", Val.str "color"), ("value", Val.str "255:0:0")],
         .event (.list [.str "command"])
           [("key", Val.str "foo"), ("value", Val.str "bar")]]
      = .ok ({ serial_verified := true,
               send_commands := [⟨"+l255000000#", true⟩],
               current_color := "255:0:0" },
             [.response (.str "ACK, foo=bar")]) := rfl

/-- C9 (amended): when no earlier Event of the batch has bound the local
`valid` — here, a single-Event batch — a command Event with a key
outside {color, brightness, mode, dim} makes the handler read the unbound
local and raise `NameError` (Python's `UnboundLocalError`), producing no
Response. -/
theorem c9_unbound_valid (s : DaemonState) (key : String) (value : Val)
    (hv : s.serial_verified = true) (h1 : key ≠ "color")
    (h2 : key ≠ "brightness") (h3 : key ≠ "mode") (h4 : key ≠ "dim") :
    process_server_request s
        [.event (.list [.str "command"])
           [("key", Val.str key), ("value", value)]]
      = .error .nameError := by
  simp [process_server_request, hv, runBatch, processOne, pyIndex0,
        dispatchCommand, Val.isStr, plookup, List.find?, h1, h2, h3, h4]

/-- Witness for `c9_unbound_valid` at the concrete key "foo". -/
theorem c9_unbound_valid_witness :
    process_server_request { serial_verified := true }
        [.event (.list [.str "command"])
           [("key", Val.str "foo"), ("value", Val.str "bar")]]
      = .error .nameError :=
  c9_unbound_valid { serial_verified := true } "foo" (.str "bar") rfl
    (by decide) (by decide) (by decide) (by decide)

/-- C10: the brightness validator converts with `int(value)` before any
range check and has no exception handler, so a non-integer value string
raises `ValueError` out of it, while the color validator catches its
`ValueError` (here: a value that does not split into three channels) and
returns `False` with the state unchanged. -/
theorem c10_brightness_uncaught_valueerror (s : DaemonState) (v : String)
    (h : pyInt v = none) (hc : (pySplitColon v).length ≠ 3) :
    send_brightness_command s (.str v) = .error .valueError
    ∧ send_color_command s (.str v) = .ok (false, s) := by
  constructor
  · simp [send_brightness_command, pyIntVal, h]
  · unfold send_color_command
    rcases hs : pySplitColon v with
      _ | ⟨a, _ | ⟨b, _ | ⟨c, _ | ⟨d, rest⟩⟩⟩⟩ <;> simp_all

/-- Witness for `c10_brightness_uncaught_valueerror` at value "abc". -/
theorem c10_brightness_witness :
    send_brightness_command {} (.str "abc") = .error .valueError
    ∧ send_color_command {} (.str "abc") = .ok (false, {}) :=
  c10_brightness_uncaught_valueerror {} "abc" rfl (by decide)

end Dsul
